import Mathlib

/-!
Shallow embedding of the luarmor-proxy license lifecycle engine
(src/index.js): key provisioning (POST /api/create-key), plan activation
(POST /api/activate-plan), HWID reset (POST /api/reset-hwid) and lazy
status reconciliation (GET /api/key-status).

Modelling conventions:
* Timestamps are exact rationals in milliseconds since the epoch
  (JavaScript `Date.getTime()` values); `Date.now()` is a natural number
  of milliseconds supplied as an explicit `nowMs` argument.  Every
  `Date.now()` read inside one request is modelled as the same instant.
* JavaScript truthiness of a nullable string column (`if (profile.luarmor_key)`)
  is `strTruthy`: null and the empty string are falsy.
* Request-body values (`user_id`, `plan_name`, `plan_days`) are modelled by
  `ReqVal`: a number (as an exact rational), a string, or absent/null.
* The two remote systems are oracles: Boolean flags say whether each
  provider call and each repository write succeeds.  Each workflow returns
  the HTTP-level outcome, the ordered list of provider calls issued, the
  list of repository writes issued, and the repository state afterwards
  (writes are applied only when the repository-success flag is true,
  mirroring the `{ error }` result of the client library).
-/

/-- JavaScript truthiness of a nullable string column: null and `""` are falsy. -/
def strTruthy : Option String → Bool
  | none => false
  | some s => s != ""

/-- A request-body field as the handlers see it: a JSON number (exact rational),
a JSON string, or absent/null. -/
inductive ReqVal where
  | vnum (q : ℚ)
  | vstr (s : String)
  | vmissing
deriving DecidableEq, Repr

/-- JavaScript truthiness of a request-body value (`!user_id` etc.):
0 and `""` and absent are falsy. -/
def truthyVal : ReqVal → Bool
  | .vnum q => q != 0
  | .vstr s => s != ""
  | .vmissing => false

/-- One row of the `profiles` table, as selected by `getProfile`
(src/index.js:119): `luarmor_key, plan_status, plan_name, plan_expires_at,
hwid_resets_remaining, last_hwid_reset`.  Timestamp columns are stored as
ISO strings in the database; here they are the parsed `getTime()` values. -/
structure Profile where
  luarmor_key : Option String
  plan_status : Option String
  plan_name : Option String
  plan_expires_at : Option ℚ
  hwid_resets_remaining : Option ℤ
  last_hwid_reset : Option ℕ
deriving DecidableEq, Repr

/-- A call issued to the Luarmor provider API (`luarmorRequest`).
`patchUser` carries the `auth_expire` body field in seconds. -/
inductive PCall where
  | createUser (note : String)
  | patchUser (user_key : String) (auth_expire : ℚ)
  | deleteUser (user_key : String)
  | resetUserHwid (user_key : String) (force : Bool)
deriving DecidableEq, Repr

/-- A repository write issued via `supabase.from("profiles").update({...})`.
Each constructor carries exactly the fields of the corresponding update
payload in src/index.js. -/
inductive RepoWrite where
  | setKeyInactive (luarmor_key : String) (plan_status : String)
  | setPlan (plan_name plan_status : String) (plan_expires_at : ℚ)
  | setHwid (hwid_resets_remaining : Option ℤ) (last_hwid_reset : ℕ)
  | setStatus (plan_status : String)
deriving DecidableEq, Repr

/-- The observable outcome of one workflow invocation: the HTTP-level
result, the provider calls issued in order, the repository writes issued,
and the repository state afterwards. -/
structure WfOut (R : Type) where
  result : R
  calls : List PCall
  writes : List RepoWrite
  profile : Option Profile
deriving DecidableEq, Repr

/-- Provider oracle for one provisioning attempt: whether the create call
succeeds and with which `user_key`, and whether the follow-up patch
succeeds. -/
structure ProviderProvision where
  createOk : Bool
  createdKey : String
  patchOk : Bool
deriving DecidableEq, Repr

/-- Outcome of POST /api/create-key. -/
inductive ProvisionResult where
  | profileMissing
  | keyExists (key : String)
  | createFailed
  | configFailed
  | persistFailed
  | created (key : String)
deriving DecidableEq, Repr

/-- POST /api/create-key (src/index.js:140-217).  `repoOk` says whether the
`update({ luarmor_key, plan_status: "inactive" })` write succeeds. -/
def createKey (profile? : Option Profile) (userId : String)
    (prov : ProviderProvision) (repoOk : Bool) : WfOut ProvisionResult :=
  match profile? with
  | none => ⟨.profileMissing, [], [], none⟩
  | some p =>
    if strTruthy p.luarmor_key then
      ⟨.keyExists (p.luarmor_key.getD ""), [], [], some p⟩
    else if !prov.createOk then
      ⟨.createFailed, [.createUser userId], [], some p⟩
    else
      let k := prov.createdKey
      if !prov.patchOk then
        ⟨.configFailed, [.createUser userId, .patchUser k 1, .deleteUser k],
          [], some p⟩
      else if repoOk then
        ⟨.created k, [.createUser userId, .patchUser k 1],
          [.setKeyInactive k "inactive"],
          some { p with luarmor_key := some k, plan_status := some "inactive" }⟩
      else
        ⟨.persistFailed, [.createUser userId, .patchUser k 1],
          [.setKeyInactive k "inactive"], some p⟩

/-- Outcome of POST /api/activate-plan. -/
inductive ActivateResult where
  | unauthorized
  | missingFields
  | invalidDays
  | keyMissing
  | patchFailed
  | persistFailed
  | activated (plan_name : String) (expires_at : ℚ)
deriving DecidableEq, Repr

/-- The `baseTimestamp` computation of src/index.js:270-279, in seconds:
start from `now`; if the plan is recorded active, the stored expiry is
non-null, and its second-resolution value is still in the future, extend
from it instead. -/
def baseTimestamp (plan_status : Option String) (plan_expires_at : Option ℚ)
    (nowUnix : ℤ) : ℤ :=
  match plan_expires_at with
  | some exp =>
    if plan_status = some "active" ∧ nowUnix < ⌊exp / 1000⌋ then ⌊exp / 1000⌋
    else nowUnix
  | none => nowUnix

/-- POST /api/activate-plan (src/index.js:236-328).  `nowMs` is the single
`Date.now()` read; `auth_expire` is computed in seconds via
`Math.floor`.  The stored `plan_expires_at` is `new Date(sec*1000)`,
whose time value is the truncated millisecond count (integral for the
integral inputs every real caller sends). -/
def activatePlan (secret webhookSecret : String)
    (user_id plan_name plan_days : ReqVal)
    (profile? : Option Profile) (nowMs : ℕ)
    (patchOk repoOk : Bool) : WfOut ActivateResult :=
  if secret != webhookSecret then
    ⟨.unauthorized, [], [], profile?⟩
  else if !(truthyVal user_id && truthyVal plan_name && truthyVal plan_days) then
    ⟨.missingFields, [], [], profile?⟩
  else
    match plan_days with
    | .vnum d =>
      if d < 1 then ⟨.invalidDays, [], [], profile?⟩
      else
        match profile? with
        | none => ⟨.keyMissing, [], [], none⟩
        | some p =>
          if !strTruthy p.luarmor_key then ⟨.keyMissing, [], [], some p⟩
          else
            let key := p.luarmor_key.getD ""
            let nowUnix : ℤ := ((nowMs / 1000 : ℕ) : ℤ)
            let base : ℤ := baseTimestamp p.plan_status p.plan_expires_at nowUnix
            let newExpire : ℚ := (base : ℚ) + d * 86400
            if !patchOk then
              ⟨.patchFailed, [.patchUser key newExpire], [], some p⟩
            else
              let pname := match plan_name with | .vstr s => s | _ => ""
              let storedMs : ℚ := (⌊newExpire * 1000⌋ : ℚ)
              if repoOk then
                ⟨.activated pname storedMs,
                  [.patchUser key newExpire],
                  [.setPlan pname "active" storedMs],
                  some { p with plan_name := some pname,
                                plan_status := some "active",
                                plan_expires_at := some storedMs }⟩
              else
                ⟨.persistFailed, [.patchUser key newExpire],
                  [.setPlan pname "active" storedMs], some p⟩
    | _ => ⟨.invalidDays, [], [], profile?⟩

/-- Outcome of POST /api/reset-hwid. -/
inductive ResetResult where
  | keyMissing
  | quotaExhausted
  | cooldownActive (remainingHours : ℤ)
  | resetFailed
  | resetOk (resets_remaining : Option ℤ)
deriving DecidableEq, Repr

/-- The quota gate of src/index.js:349: blocked when
`hwid_resets_remaining !== null && hwid_resets_remaining <= 0`. -/
def quotaBlocked (hwid_resets_remaining : Option ℤ) : Bool :=
  match hwid_resets_remaining with
  | some n => decide (n ≤ 0)
  | none => false

/-- The cooldown gate of src/index.js:357-368: when a previous reset
timestamp exists and `Date.now() - lastReset < 24*60*60*1000`, returns the
remaining wait in hours, `Math.ceil`-rounded; otherwise the gate passes. -/
def cooldownGate (last_hwid_reset : Option ℕ) (nowMs : ℕ) : Option ℤ :=
  match last_hwid_reset with
  | some lastReset =>
    if (nowMs : ℤ) - lastReset < 86400000 then
      some ⌈(((86400000 - ((nowMs : ℤ) - lastReset)) : ℤ) : ℚ) / 3600000⌉
    else none
  | none => none

/-- POST /api/reset-hwid (src/index.js:339-406).  `nowMs` is the single
`Date.now()` instant of the request (the handler reads the clock three
times within microseconds; the spec-level model uses one instant).  The
repository write result is not inspected by the handler, so `repoOk` only
determines whether the write takes effect, never the response. -/
def resetHwid (profile? : Option Profile) (nowMs : ℕ)
    (providerOk repoOk : Bool) : WfOut ResetResult :=
  match profile? with
  | none => ⟨.keyMissing, [], [], none⟩
  | some p =>
    if !strTruthy p.luarmor_key then ⟨.keyMissing, [], [], some p⟩
    else if quotaBlocked p.hwid_resets_remaining then
      ⟨.quotaExhausted, [], [], some p⟩
    else
      match cooldownGate p.last_hwid_reset nowMs with
      | some remainingHours => ⟨.cooldownActive remainingHours, [], [], some p⟩
      | none =>
        let key := p.luarmor_key.getD ""
        if !providerOk then
          ⟨.resetFailed, [.resetUserHwid key true], [], some p⟩
        else
          let newRemaining := p.hwid_resets_remaining.map (· - 1)
          ⟨.resetOk newRemaining, [.resetUserHwid key true],
            [.setHwid newRemaining nowMs],
            some (if repoOk then
              { p with hwid_resets_remaining := newRemaining,
                       last_hwid_reset := some nowMs }
            else p)⟩

/-- The response body of GET /api/key-status: the profile fields echoed to
the caller, with `luarmor_key: profile.luarmor_key || null` and
`plan_status` possibly corrected to "expired". -/
structure StatusView where
  luarmor_key : Option String
  plan_name : Option String
  plan_status : Option String
  plan_expires_at : Option ℚ
  hwid_resets_remaining : Option ℤ
  last_hwid_reset : Option ℕ
deriving DecidableEq, Repr

/-- Outcome of GET /api/key-status. -/
inductive StatusResult where
  | profileMissing
  | statusOk (view : StatusView)
deriving DecidableEq, Repr

/-- The lazy-expiry condition of src/index.js:428-430: stored status is
"active", the stored expiry is non-null, and `Date.now()` is strictly past
it. -/
def expiredNow (plan_status : Option String) (plan_expires_at : Option ℚ)
    (nowMs : ℕ) : Bool :=
  decide (plan_status = some "active") &&
    (match plan_expires_at with
     | some exp => decide ((nowMs : ℚ) > exp)
     | none => false)

/-- GET /api/key-status (src/index.js:416-451).  When the stored status is
"active" and the expiry lies strictly in the past, the handler rewrites the
status to "expired", issues the one-field repository update, and responds
with the corrected status; the write result is not inspected. -/
def keyStatus (profile? : Option Profile) (nowMs : ℕ) (repoOk : Bool) :
    WfOut StatusResult :=
  match profile? with
  | none => ⟨.profileMissing, [], [], none⟩
  | some p =>
    let expired : Bool := expiredNow p.plan_status p.plan_expires_at nowMs
    let currentStatus := if expired then some "expired" else p.plan_status
    let view : StatusView :=
      { luarmor_key := if strTruthy p.luarmor_key then p.luarmor_key else none
        plan_name := p.plan_name
        plan_status := currentStatus
        plan_expires_at := p.plan_expires_at
        hwid_resets_remaining := p.hwid_resets_remaining
        last_hwid_reset := p.last_hwid_reset }
    if expired then
      ⟨.statusOk view, [], [.setStatus "expired"],
        some (if repoOk then { p with plan_status := some "expired" } else p)⟩
    else
      ⟨.statusOk view, [], [], some p⟩

/-- One attempted HWID reset per list element, oracle-driven: each element
gives the `Date.now()` instant and whether the provider call (if reached)
succeeds; repository writes all succeed.  Returns the final profile and the
number of attempts that reported success. -/
def resetRun : Profile → List (ℕ × Bool) → Profile × ℕ
  | p, [] => (p, 0)
  | p, (nowMs, providerOk) :: rest =>
    let o := resetHwid (some p) nowMs providerOk true
    let p' := o.profile.getD p
    let r := resetRun p' rest
    match o.result with
    | .resetOk _ => (r.1, r.2 + 1)
    | _ => r

/-- The JavaScript number 1.5 — exactly representable as a double — as the
exact rational 3/2, written as an explicit reduced fraction so concrete
runs reduce. -/
def threeHalves : ℚ := ⟨3, 2, by decide, by decide⟩

/-! ## Claim theorems -/

/-- An HWID reset attempt on a keyed profile blocked by the quota gate:
no provider call, no write, no change. -/
theorem resetHwid_quota_blocked (p : Profile) (nowMs : ℕ)
    (providerOk repoOk : Bool)
    (hkey : strTruthy p.luarmor_key = true)
    (hq : quotaBlocked p.hwid_resets_remaining = true) :
    resetHwid (some p) nowMs providerOk repoOk =
      ⟨.quotaExhausted, [], [], some p⟩ := by
  simp [resetHwid, hkey, hq]

/-- An HWID reset attempt on a keyed profile passing the quota gate but
blocked by the cooldown gate: no provider call, no write, no change. -/
theorem resetHwid_cooldown_blocked (p : Profile) (nowMs : ℕ)
    (providerOk repoOk : Bool) (r : ℤ)
    (hkey : strTruthy p.luarmor_key = true)
    (hq : quotaBlocked p.hwid_resets_remaining = false)
    (hc : cooldownGate p.last_hwid_reset nowMs = some r) :
    resetHwid (some p) nowMs providerOk repoOk =
      ⟨.cooldownActive r, [], [], some p⟩ := by
  simp [resetHwid, hkey, hq, hc]

/-- An HWID reset attempt that passes all three gates, split on the
provider outcome. -/
theorem resetHwid_gates_passed (p : Profile) (nowMs : ℕ)
    (providerOk repoOk : Bool)
    (hkey : strTruthy p.luarmor_key = true)
    (hq : quotaBlocked p.hwid_resets_remaining = false)
    (hc : cooldownGate p.last_hwid_reset nowMs = none) :
    resetHwid (some p) nowMs providerOk repoOk =
      if providerOk then
        ⟨.resetOk (p.hwid_resets_remaining.map (· - 1)),
         [.resetUserHwid (p.luarmor_key.getD "") true],
         [.setHwid (p.hwid_resets_remaining.map (· - 1)) nowMs],
         some (if repoOk then
           { p with hwid_resets_remaining := p.hwid_resets_remaining.map (· - 1),
                    last_hwid_reset := some nowMs }
           else p)⟩
      else
        ⟨.resetFailed, [.resetUserHwid (p.luarmor_key.getD "") true],
          [], some p⟩ := by
  cases providerOk <;> simp [resetHwid, hkey, hq, hc]

/-- Any single HWID reset attempt either leaves the profile unchanged and
does not report success, or passed the quota gate, reports success with
the decremented counter, and updates exactly the two HWID fields. -/
theorem resetHwid_step_cases (p : Profile) (nowMs : ℕ) (provOk : Bool) :
    ((resetHwid (some p) nowMs provOk true).profile = some p ∧
      ∀ r, (resetHwid (some p) nowMs provOk true).result ≠ .resetOk r) ∨
    (quotaBlocked p.hwid_resets_remaining = false ∧
     (resetHwid (some p) nowMs provOk true).result =
       .resetOk (p.hwid_resets_remaining.map (· - 1)) ∧
     (resetHwid (some p) nowMs provOk true).profile =
       some { p with
                hwid_resets_remaining := p.hwid_resets_remaining.map (· - 1),
                last_hwid_reset := some nowMs }) := by
  by_cases h1 : strTruthy p.luarmor_key = true
  · by_cases h2 : quotaBlocked p.hwid_resets_remaining = true
    · left
      rw [resetHwid_quota_blocked p nowMs provOk true h1 h2]
      simp
    · rcases hc : cooldownGate p.last_hwid_reset nowMs with - | r
      · have hg := resetHwid_gates_passed p nowMs provOk true h1
          (Bool.not_eq_true _ ▸ h2) hc
        cases provOk
        · rw [hg]
          left
          simp
        · rw [hg]
          right
          exact ⟨Bool.not_eq_true _ ▸ h2, by simp, by simp⟩
      · left
        rw [resetHwid_cooldown_blocked p nowMs provOk true r h1
          (Bool.not_eq_true _ ▸ h2) hc]
        simp
  · left
    have h1' : strTruthy p.luarmor_key = false := Bool.not_eq_true _ ▸ h1
    simp [resetHwid, h1']

/-- C3: whenever the post-create expiry patch fails, provisioning issues a
compensating delete of the credential created in the preceding step,
reports the provider-side provisioning failure (HTTP 502), and performs no
profile write — the repository state is untouched. -/
theorem C3_provisioning_rollback
    (p : Profile) (userId : String) (prov : ProviderProvision) (repoOk : Bool)
    (hkey : strTruthy p.luarmor_key = false)
    (hcreate : prov.createOk = true) (hpatch : prov.patchOk = false) :
    createKey (some p) userId prov repoOk =
      ⟨.configFailed,
       [.createUser userId, .patchUser prov.createdKey 1, .deleteUser prov.createdKey],
       [], some p⟩ := by
  simp [createKey, hkey, hcreate, hpatch]

/-- Witness for C3 at a concrete fresh profile whose expiry patch fails. -/
theorem C3_provisioning_rollback_witness :
    createKey (some ⟨none, none, none, none, none, none⟩) "user-1"
        ⟨true, "LRM-KEY", false⟩ true =
      ⟨.configFailed,
       [.createUser "user-1", .patchUser "LRM-KEY" 1, .deleteUser "LRM-KEY"],
       [], some ⟨none, none, none, none, none, none⟩⟩ :=
  C3_provisioning_rollback _ _ _ _ (by decide) (by decide) (by decide)

/-- C2 as frozen is false on the code: a profile whose `license_key` is the
non-null empty string is treated as having no key (JavaScript truthiness),
so provisioning creates a fresh provider credential instead of returning
the stored key with no provider call. -/
theorem C2_counterexample :
    (⟨some "", none, none, none, none, none⟩ : Profile).luarmor_key = some "" ∧
    (createKey (some ⟨some "", none, none, none, none, none⟩) "user-1"
        ⟨true, "LRM-NEW", true⟩ true).calls ≠ [] ∧
    (createKey (some ⟨some "", none, none, none, none, none⟩) "user-1"
        ⟨true, "LRM-NEW", true⟩ true).result ≠ .keyExists "" := by
  refine ⟨rfl, ?_, ?_⟩ <;> decide

/-- C2 (amended: "non-null" strengthened to "non-null and non-empty", the
truthiness test the code actually performs): a profile holding a non-empty
key is returned unchanged with no provider call and no write, and two
provisioning runs starting from a key-less profile yield the same key both
times while issuing exactly one create call (none on the second run). -/
theorem C2_key_provisioning_idempotent
    (p : Profile) (userId : String) (prov : ProviderProvision) (repoOk : Bool) :
    (∀ s, p.luarmor_key = some s → s ≠ "" →
      createKey (some p) userId prov repoOk = ⟨.keyExists s, [], [], some p⟩)
    ∧
    (p.luarmor_key = none → prov.createOk = true → prov.patchOk = true →
      prov.createdKey ≠ "" →
      createKey (some p) userId prov true =
        ⟨.created prov.createdKey,
         [.createUser userId, .patchUser prov.createdKey 1],
         [.setKeyInactive prov.createdKey "inactive"],
         some { p with luarmor_key := some prov.createdKey,
                       plan_status := some "inactive" }⟩ ∧
      (∀ (prov2 : ProviderProvision) (repoOk2 : Bool),
        createKey (createKey (some p) userId prov true).profile userId prov2 repoOk2 =
          ⟨.keyExists prov.createdKey, [], [],
           (createKey (some p) userId prov true).profile⟩)) := by
  constructor
  · intro s hs hne
    simp [createKey, strTruthy, hs, hne]
  · intro h1 h2 h3 h4
    have hfirst : createKey (some p) userId prov true =
        ⟨.created prov.createdKey,
         [.createUser userId, .patchUser prov.createdKey 1],
         [.setKeyInactive prov.createdKey "inactive"],
         some { p with luarmor_key := some prov.createdKey,
                       plan_status := some "inactive" }⟩ := by
      simp [createKey, strTruthy, h1, h2, h3]
    refine ⟨hfirst, ?_⟩
    intro prov2 repoOk2
    rw [hfirst]
    simp [createKey, strTruthy, h4]

/-- Witness for C2: both conjuncts applied at concrete inputs. -/
theorem C2_key_provisioning_idempotent_witness :
    createKey (some ⟨some "LRM-OLD", none, none, none, none, none⟩) "user-1"
        ⟨true, "LRM-NEW", true⟩ true =
      ⟨.keyExists "LRM-OLD", [], [],
       some ⟨some "LRM-OLD", none, none, none, none, none⟩⟩ ∧
    createKey (createKey (some ⟨none, none, none, none, none, none⟩) "user-1"
        ⟨true, "LRM-NEW", true⟩ true).profile "user-1" ⟨true, "LRM-XX", true⟩ true =
      ⟨.keyExists "LRM-NEW", [], [],
       (createKey (some ⟨none, none, none, none, none, none⟩) "user-1"
        ⟨true, "LRM-NEW", true⟩ true).profile⟩ :=
  ⟨(C2_key_provisioning_idempotent _ "user-1" ⟨true, "LRM-NEW", true⟩ true).1
      "LRM-OLD" rfl (by decide),
   ((C2_key_provisioning_idempotent _ "user-1" ⟨true, "LRM-NEW", true⟩ true).2
      rfl rfl rfl (by decide)).2 ⟨true, "LRM-XX", true⟩ true⟩

/-- C7: when the provider reports non-success — the `patchOk`/`providerOk`
oracle is false — activation and HWID reset issue no repository write and
leave the profile untouched, and whenever the provider call was actually
reached they surface the provider failure (HTTP 502). -/
theorem C7_provider_failure_no_local_change
    (secret webhookSecret : String) (user_id plan_name plan_days : ReqVal)
    (profile? : Option Profile) (nowMs : ℕ) (repoOk : Bool) :
    ((activatePlan secret webhookSecret user_id plan_name plan_days
        profile? nowMs false repoOk).writes = [] ∧
     (activatePlan secret webhookSecret user_id plan_name plan_days
        profile? nowMs false repoOk).profile = profile? ∧
     ((activatePlan secret webhookSecret user_id plan_name plan_days
        profile? nowMs false repoOk).calls ≠ [] →
       (activatePlan secret webhookSecret user_id plan_name plan_days
        profile? nowMs false repoOk).result = .patchFailed)) ∧
    ((resetHwid profile? nowMs false repoOk).writes = [] ∧
     (resetHwid profile? nowMs false repoOk).profile = profile? ∧
     ((resetHwid profile? nowMs false repoOk).calls ≠ [] →
       (resetHwid profile? nowMs false repoOk).result = .resetFailed)) := by
  constructor
  · unfold activatePlan
    split
    · simp
    · split
      · simp
      · split
        · split
          · simp
          · split
            · simp
            · split
              · simp
              · simp
        · simp
  · unfold resetHwid
    split
    · simp
    · split
      · simp
      · split
        · simp
        · split
          · simp
          · simp

/-- Witness for C7 at concrete inputs that do reach the provider call in
both workflows. -/
theorem C7_provider_failure_no_local_change_witness :
    (activatePlan "sec" "sec" (.vstr "user-1") (.vstr "gold") (.vnum 30)
        (some ⟨some "LRM-KEY", none, none, none, none, none⟩) 1000000 false true).result
      = .patchFailed ∧
    (resetHwid (some ⟨some "LRM-KEY", none, none, none, some 3, none⟩)
        1000000 false true).result = .resetFailed :=
  ⟨(C7_provider_failure_no_local_change "sec" "sec" (.vstr "user-1") (.vstr "gold")
      (.vnum 30) (some ⟨some "LRM-KEY", none, none, none, none, none⟩) 1000000
      true).1.2.2 (by decide),
   (C7_provider_failure_no_local_change "sec" "sec" (.vstr "user-1") (.vstr "gold")
      (.vnum 30) (some ⟨some "LRM-KEY", none, none, none, some 3, none⟩) 1000000
      true).2.2.2 (by decide)⟩

/-- Characterisation of the lazy-expiry condition. -/
theorem expiredNow_eq_true (st : Option String) (exp? : Option ℚ) (nowMs : ℕ) :
    expiredNow st exp? nowMs = true ↔
      st = some "active" ∧ ∃ exp, exp? = some exp ∧ exp < (nowMs : ℚ) := by
  cases exp? <;> simp [expiredNow, gt_iff_lt]

/-- Evaluation of the status read on an existing profile, split on the
lazy-expiry condition. -/
theorem keyStatus_some (p : Profile) (nowMs : ℕ) (repoOk : Bool) :
    keyStatus (some p) nowMs repoOk =
      if expiredNow p.plan_status p.plan_expires_at nowMs then
        ⟨.statusOk ⟨(if strTruthy p.luarmor_key then p.luarmor_key else none),
            p.plan_name, some "expired", p.plan_expires_at,
            p.hwid_resets_remaining, p.last_hwid_reset⟩,
         [], [.setStatus "expired"],
         some (if repoOk then { p with plan_status := some "expired" } else p)⟩
      else
        ⟨.statusOk ⟨(if strTruthy p.luarmor_key then p.luarmor_key else none),
            p.plan_name, p.plan_status, p.plan_expires_at,
            p.hwid_resets_remaining, p.last_hwid_reset⟩,
         [], [], some p⟩ := by
  simp only [keyStatus]
  by_cases h : expiredNow p.plan_status p.plan_expires_at nowMs = true <;>
    simp [h]

/-- C8: reading the status of a profile stored as active whose expiry lies
strictly in the past rewrites the status to expired, issues the persisting
repository write before responding, and answers with status expired; and
the reconciliation read never issues any other transition — the only write
it can issue is active-to-expired, and the answered status is either the
stored one or expired-from-active. -/
theorem C8_lazy_expiry_reconciliation (p : Profile) (nowMs : ℕ) (repoOk : Bool) :
    (∀ exp : ℚ, p.plan_status = some "active" → p.plan_expires_at = some exp →
      exp < (nowMs : ℚ) →
      ((keyStatus (some p) nowMs repoOk).writes = [.setStatus "expired"] ∧
       (∃ v, (keyStatus (some p) nowMs repoOk).result = .statusOk v ∧
          v.plan_status = some "expired") ∧
       (repoOk = true →
         (keyStatus (some p) nowMs repoOk).profile =
           some { p with plan_status := some "expired" }))) ∧
    ((keyStatus (some p) nowMs repoOk).writes = [] ∨
      ((keyStatus (some p) nowMs repoOk).writes = [.setStatus "expired"] ∧
        p.plan_status = some "active")) ∧
    (∀ v, (keyStatus (some p) nowMs repoOk).result = .statusOk v →
      v.plan_status = p.plan_status ∨
        (p.plan_status = some "active" ∧ v.plan_status = some "expired")) := by
  have hk := keyStatus_some p nowMs repoOk
  by_cases h : expiredNow p.plan_status p.plan_expires_at nowMs = true
  · rw [if_pos h] at hk
    have hst : p.plan_status = some "active" :=
      ((expiredNow_eq_true _ _ _).mp h).1
    refine ⟨?_, Or.inr ⟨by rw [hk], hst⟩, ?_⟩
    · intro exp hstatus hexp hlt
      refine ⟨by rw [hk], ⟨_, by rw [hk], rfl⟩, ?_⟩
      intro hrepo
      rw [hk, hrepo]
      simp
    · intro v hv
      rw [hk] at hv
      cases hv
      exact Or.inr ⟨hst, rfl⟩
  · rw [if_neg h] at hk
    refine ⟨?_, Or.inl (by rw [hk]), ?_⟩
    · intro exp hstatus hexp hlt
      exact absurd ((expiredNow_eq_true _ _ _).mpr
        ⟨hstatus, exp, hexp, hlt⟩) h
    · intro v hv
      rw [hk] at hv
      cases hv
      exact Or.inl rfl

/-- Witness for C8 at a concrete stale-active profile read after expiry. -/
theorem C8_lazy_expiry_reconciliation_witness :
    (keyStatus (some ⟨some "LRM-KEY", some "active", some "gold", some 1000,
        some 3, none⟩) 2000 true).writes = [.setStatus "expired"] ∧
    (keyStatus (some ⟨some "LRM-KEY", some "active", some "gold", some 1000,
        some 3, none⟩) 2000 true).profile =
      some ⟨some "LRM-KEY", some "expired", some "gold", some 1000, some 3, none⟩ :=
  ⟨((C8_lazy_expiry_reconciliation _ 2000 true).1 1000 rfl rfl (by norm_num)).1,
   ((C8_lazy_expiry_reconciliation _ 2000 true).1 1000 rfl rfl (by norm_num)).2.2 rfl⟩

/-- C10 as frozen is false on the code: the response field `luarmor_key`
is `profile.luarmor_key || null`, so a profile read with the non-null
empty-string key is answered with `null` — not the field exactly as it was
read. -/
theorem C10_counterexample :
    (keyStatus (some ⟨some "", some "active", some "gold", some 1000, some 3,
        none⟩) 2000 true).result =
      .statusOk ⟨none, some "gold", some "expired", some 1000, some 3, none⟩ ∧
    (some "" : Option String) ≠ none := by
  have h : expiredNow (some "active") (some 1000) 2000 = true :=
    (expiredNow_eq_true _ _ _).mpr ⟨rfl, 1000, rfl, by norm_num⟩
  have hk := keyStatus_some ⟨some "", some "active", some "gold", some 1000,
    some 3, none⟩ 2000 true
  rw [if_pos h] at hk
  refine ⟨?_, by decide⟩
  rw [hk]
  simp [strTruthy]

/-- C10 (amended: the persisted update touches only `plan_status`, and the
response echoes `plan_name`, `plan_expires_at`, `hwid_resets_remaining`
and `last_hwid_reset_at` exactly as read; `license_key` is echoed as read
except that an empty-string key is reported as null by the `|| null`
normalisation): the frame property of the active-to-expired transition. -/
theorem C10_reconciliation_frame (p : Profile) (nowMs : ℕ) (repoOk : Bool)
    (exp : ℚ) (hstatus : p.plan_status = some "active")
    (hexp : p.plan_expires_at = some exp) (hlt : exp < (nowMs : ℚ)) :
    (keyStatus (some p) nowMs repoOk).writes = [.setStatus "expired"] ∧
    (repoOk = true → (keyStatus (some p) nowMs repoOk).profile =
      some ⟨p.luarmor_key, some "expired", p.plan_name, p.plan_expires_at,
            p.hwid_resets_remaining, p.last_hwid_reset⟩) ∧
    (keyStatus (some p) nowMs repoOk).result =
      .statusOk ⟨(if strTruthy p.luarmor_key then p.luarmor_key else none),
        p.plan_name, some "expired", p.plan_expires_at,
        p.hwid_resets_remaining, p.last_hwid_reset⟩ := by
  have h : expiredNow p.plan_status p.plan_expires_at nowMs = true :=
    (expiredNow_eq_true _ _ _).mpr ⟨hstatus, exp, hexp, hlt⟩
  have hk := keyStatus_some p nowMs repoOk
  rw [if_pos h] at hk
  refine ⟨by rw [hk], ?_, by rw [hk]⟩
  intro hrepo
  rw [hk, hrepo]
  simp

/-- Witness for C10 at a concrete expired-but-active profile with a
non-empty key. -/
theorem C10_reconciliation_frame_witness :
    (keyStatus (some ⟨some "LRM-W10", some "active", some "silver", some 5000,
        none, some 1⟩) 6000 true).writes = [.setStatus "expired"] ∧
    (keyStatus (some ⟨some "LRM-W10", some "active", some "silver", some 5000,
        none, some 1⟩) 6000 true).profile =
      some ⟨some "LRM-W10", some "expired", some "silver", some 5000, none,
        some 1⟩ ∧
    (keyStatus (some ⟨some "LRM-W10", some "active", some "silver", some 5000,
        none, some 1⟩) 6000 true).result =
      .statusOk ⟨some "LRM-W10", some "silver", some "expired", some 5000,
        none, some 1⟩ :=
  ⟨(C10_reconciliation_frame _ 6000 true 5000 rfl rfl (by norm_num)).1,
   (C10_reconciliation_frame _ 6000 true 5000 rfl rfl (by norm_num)).2.1 rfl,
   (C10_reconciliation_frame _ 6000 true 5000 rfl rfl (by norm_num)).2.2⟩

/-- Run invariant: starting from a profile with a non-null counter, the
counter after a sequence of attempts equals the initial value minus the
number of successes, and the success count never exceeds the positive part
of the initial value. -/
theorem resetRun_spec (steps : List (ℕ × Bool)) (p : Profile) (n : ℤ)
    (h : p.hwid_resets_remaining = some n) :
    (resetRun p steps).1.hwid_resets_remaining =
      some (n - (resetRun p steps).2) ∧
    ((resetRun p steps).2 : ℤ) ≤ max n 0 := by
  induction steps generalizing p n with
  | nil =>
    refine ⟨by simpa [resetRun] using h, by simp [resetRun]⟩
  | cons st rest ih =>
    obtain ⟨nowMs, provOk⟩ := st
    rcases resetHwid_step_cases p nowMs provOk with ⟨hp, hnr⟩ | ⟨hq, hr, hp⟩
    · have hrun : resetRun p ((nowMs, provOk) :: rest) = resetRun p rest := by
        simp only [resetRun, hp, Option.getD_some]
      rw [hrun]
      exact ih p n h
    · have hn : 0 < n := by
        by_contra hle
        simp [quotaBlocked, h] at hq
        omega
      have hrun : resetRun p ((nowMs, provOk) :: rest) =
          ((resetRun { p with
              hwid_resets_remaining := p.hwid_resets_remaining.map (· - 1),
              last_hwid_reset := some nowMs } rest).1,
           (resetRun { p with
              hwid_resets_remaining := p.hwid_resets_remaining.map (· - 1),
              last_hwid_reset := some nowMs } rest).2 + 1) := by
        simp only [resetRun, hp, Option.getD_some, hr]
      have hih := ih { p with
          hwid_resets_remaining := p.hwid_resets_remaining.map (· - 1),
          last_hwid_reset := some nowMs } (n - 1) (by simp [h])
      rw [hrun]
      constructor
      · rw [hih.1]
        congr 1
        push_cast
        ring
      · have := hih.2
        push_cast at this ⊢
        omega

/-- C5: the quota gate — a keyed profile whose counter is non-null and at
or below zero is rejected with QuotaExhausted, with no provider call and no
state change — and quota monotonicity: over any sequence of attempts (all
repository writes succeeding), the counter ends at the initial value minus
the number of successes, the success count never exceeds the positive part
of the initial value, and a non-negative counter never goes negative. -/
theorem C5_quota_monotonicity (p : Profile) (n : ℤ) (steps : List (ℕ × Bool))
    (h : p.hwid_resets_remaining = some n) :
    (∀ (nowMs : ℕ) (providerOk repoOk : Bool), n ≤ 0 →
      strTruthy p.luarmor_key = true →
      resetHwid (some p) nowMs providerOk repoOk =
        ⟨.quotaExhausted, [], [], some p⟩) ∧
    ((resetRun p steps).1.hwid_resets_remaining =
        some (n - (resetRun p steps).2) ∧
      ((resetRun p steps).2 : ℤ) ≤ max n 0 ∧
      (0 ≤ n → 0 ≤ n - (resetRun p steps).2)) := by
  refine ⟨?_, (resetRun_spec steps p n h).1, (resetRun_spec steps p n h).2, ?_⟩
  · intro nowMs providerOk repoOk hle hkey
    exact resetHwid_quota_blocked p nowMs providerOk repoOk hkey
      (by simp [quotaBlocked, h, hle])
  · intro hn
    have := (resetRun_spec steps p n h).2
    omega

/-- Witness for C5: a counter at zero is rejected outright, and a run of
one successful reset on a counter of two ends with a counter of one. -/
theorem C5_quota_monotonicity_witness :
    resetHwid (some ⟨some "K5", none, none, none, some 0, none⟩) 5000 true true =
      ⟨.quotaExhausted, [], [], some ⟨some "K5", none, none, none, some 0, none⟩⟩ ∧
    (resetRun ⟨some "K5", none, none, none, some 2, none⟩
        [(1000, true)]).1.hwid_resets_remaining =
      some (2 - (resetRun ⟨some "K5", none, none, none, some 2, none⟩
        [(1000, true)]).2) :=
  ⟨(C5_quota_monotonicity _ 0 [] rfl).1 5000 true true (by decide) (by decide),
   (C5_quota_monotonicity _ 2 [(1000, true)] rfl).2.1⟩

/-- C6 as frozen is false on the code: the quota gate runs before the
cooldown gate, so a keyed profile with `last_hwid_reset_at` set one hour
ago but an exhausted counter is rejected with QuotaExhausted, not
CooldownActive (the claim would require CooldownActive with a 23-hour
wait). -/
theorem C6_counterexample :
    (⟨some "K6", none, none, none, some 0, some 0⟩ : Profile).last_hwid_reset
        = some 0 ∧
    (resetHwid (some ⟨some "K6", none, none, none, some 0, some 0⟩)
        3600000 true true).result = .quotaExhausted ∧
    (resetHwid (some ⟨some "K6", none, none, none, some 0, some 0⟩)
        3600000 true true).result ≠ .cooldownActive 23 := by
  refine ⟨rfl, ?_, ?_⟩ <;> decide

/-- C6 (amended: restricted to attempts that pass the quota gate, which the
code checks first): on a keyed profile with a previous reset timestamp and
quota available, an attempt strictly less than 24 hours after the previous
reset fails with CooldownActive carrying the remaining wait rounded up to
whole hours, and issues no provider call and no write; an attempt at
exactly 24 hours or later passes the cooldown gate and issues the provider
reset call. -/
theorem C6_cooldown_boundary (p : Profile) (s : String) (lastMs nowMs : ℕ)
    (providerOk repoOk : Bool)
    (hkey : p.luarmor_key = some s) (hs : s ≠ "")
    (hq : quotaBlocked p.hwid_resets_remaining = false)
    (hlast : p.last_hwid_reset = some lastMs) :
    ((nowMs : ℤ) - lastMs < 86400000 →
      resetHwid (some p) nowMs providerOk repoOk =
        ⟨.cooldownActive
            ⌈(((86400000 - ((nowMs : ℤ) - lastMs)) : ℤ) : ℚ) / 3600000⌉,
         [], [], some p⟩) ∧
    (86400000 ≤ (nowMs : ℤ) - lastMs →
      (resetHwid (some p) nowMs providerOk repoOk).calls =
        [.resetUserHwid s true]) := by
  have hkeyT : strTruthy p.luarmor_key = true := by simp [strTruthy, hkey, hs]
  constructor
  · intro hlt
    exact resetHwid_cooldown_blocked p nowMs providerOk repoOk _ hkeyT hq
      (by simp [cooldownGate, hlast, hlt])
  · intro hge
    have hc : cooldownGate p.last_hwid_reset nowMs = none := by
      simp [cooldownGate, hlast]
      omega
    rw [resetHwid_gates_passed p nowMs providerOk repoOk hkeyT hq hc]
    cases providerOk <;> simp [hkey]

/-- Witness for C6: with quota available and the last reset at the epoch,
an attempt one hour later is blocked by the cooldown, and an attempt at
exactly 24 hours passes the gate and reaches the provider. -/
theorem C6_cooldown_boundary_witness :
    resetHwid (some ⟨some "K6", none, none, none, some 2, some 0⟩)
        3600000 true true =
      ⟨.cooldownActive
          ⌈(((86400000 - ((3600000 : ℕ) - ((0 : ℕ) : ℤ))) : ℤ) : ℚ) / 3600000⌉,
       [], [], some ⟨some "K6", none, none, none, some 2, some 0⟩⟩ ∧
    (resetHwid (some ⟨some "K6", none, none, none, some 2, some 0⟩)
        86400000 true true).calls = [.resetUserHwid "K6" true] :=
  ⟨(C6_cooldown_boundary _ "K6" 0 3600000 true true rfl (by decide) (by decide)
      rfl).1 (by decide),
   (C6_cooldown_boundary _ "K6" 0 86400000 true true rfl (by decide) (by decide)
      rfl).2 (by decide)⟩

/-- C4: the code violates the claim.  On a successful provider reset the
handler issues the two-field profile update but never inspects its result
(src/index.js:389-395, unlike the checked updates in the other routes), so
when the repository write fails it still reports success with the
decremented counter while the stored profile is unchanged — no
PersistenceFailure is ever surfaced. -/
theorem C4_reset_persistence_failure_ignored :
    (resetHwid (some ⟨some "K4", none, none, none, some 3, none⟩)
        7000 true false).result = .resetOk (some 2) ∧
    (resetHwid (some ⟨some "K4", none, none, none, some 3, none⟩)
        7000 true false).writes = [.setHwid (some 2) 7000] ∧
    (resetHwid (some ⟨some "K4", none, none, none, some 3, none⟩)
        7000 true false).profile =
      some ⟨some "K4", none, none, none, some 3, none⟩ := by
  refine ⟨?_, ?_, ?_⟩ <;> decide

/-- C9: the code violates the claim.  Validation only checks
`typeof plan_days === "number" && plan_days >= 1`, so the non-integer
number 1.5 passes validation and the workflow proceeds (here to the
profile lookup), although the code's own error message demands a positive
integer. -/
theorem C9_fractional_days_pass_validation :
    threeHalves.num = 3 ∧ threeHalves.den = 2 ∧
    (activatePlan "sec" "sec" (.vstr "user-1") (.vstr "gold")
        (.vnum threeHalves) none 1000 true true).result = .keyMissing ∧
    (activatePlan "sec" "sec" (.vstr "user-1") (.vstr "gold")
        (.vnum threeHalves) none 1000 true true).result ≠ .invalidDays ∧
    (activatePlan "sec" "sec" (.vstr "user-1") (.vstr "gold")
        (.vnum threeHalves) none 1000 true true).result ≠ .missingFields := by
  refine ⟨rfl, rfl, ?_, ?_, ?_⟩ <;> decide

/-- C1: the extend-or-set arithmetic of plan activation, at the whole-second
timestamps the system itself stores (`auth_expire` is in seconds and every
persisted expiry is a whole second).  For a keyed profile, with
`plan_days = d ≥ 1` an integer: when the stored status is active and the
stored expiry `T` (seconds) is strictly in the future the provider is
patched with `T + d*86400`, otherwise with `now + d*86400`; and on
provider and repository success exactly that value (in milliseconds) is
persisted together with the plan name and active status. -/
theorem C1_plan_activation_arithmetic (sec : String) (p : Profile)
    (s userId pname : String) (T now d : ℕ) (patchOk repoOk : Bool)
    (hkey : p.luarmor_key = some s) (hs : s ≠ "")
    (huid : userId ≠ "") (hpn : pname ≠ "") (hd : 1 ≤ d)
    (hexp : p.plan_expires_at = none ∨
      p.plan_expires_at = some ((1000 * T : ℕ) : ℚ)) :
    (activatePlan sec sec (.vstr userId) (.vstr pname) (.vnum (d : ℚ))
        (some p) (1000 * now) patchOk repoOk).calls =
      [.patchUser s
        (((if p.plan_status = some "active" ∧
              p.plan_expires_at = some ((1000 * T : ℕ) : ℚ) ∧ now < T
            then T + d * 86400 else now + d * 86400 : ℕ) : ℚ))] ∧
    (patchOk = true → repoOk = true →
      (activatePlan sec sec (.vstr userId) (.vstr pname) (.vnum (d : ℚ))
          (some p) (1000 * now) patchOk repoOk).profile =
        some { p with
                 plan_name := some pname,
                 plan_status := some "active",
                 plan_expires_at := some
                   ((((if p.plan_status = some "active" ∧
                         p.plan_expires_at = some ((1000 * T : ℕ) : ℚ) ∧ now < T
                       then T + d * 86400 else now + d * 86400 : ℕ) : ℚ)) * 1000) }) := by
  have hkeyT : strTruthy p.luarmor_key = true := by simp [strTruthy, hkey, hs]
  have hdq : ¬ ((d : ℚ) < 1) := by
    rw [not_lt]
    exact_mod_cast hd
  have hnowUnix : ((1000 * now / 1000 : ℕ) : ℤ) = (now : ℤ) := by
    norm_num
  have hbase : baseTimestamp p.plan_status p.plan_expires_at
      ((1000 * now / 1000 : ℕ) : ℤ) =
      (if p.plan_status = some "active" ∧
          p.plan_expires_at = some ((1000 * T : ℕ) : ℚ) ∧ now < T
        then (T : ℤ) else (now : ℤ)) := by
    rcases hexp with hnone | hsome
    · rw [hnone]
      simp [baseTimestamp, hnowUnix]
    · have hfloorT : (((1000 * T : ℕ) : ℚ)) / 1000 = (T : ℚ) := by
        push_cast
        exact mul_div_cancel_left₀ (T : ℚ) (by norm_num)
      rw [hsome]
      simp only [baseTimestamp, hfloorT, Int.floor_natCast, hnowUnix]
      by_cases hc : p.plan_status = some "active" ∧ (now : ℤ) < (T : ℤ)
      · rw [if_pos hc, if_pos ⟨hc.1, by trivial, by exact_mod_cast hc.2⟩]
      · rw [if_neg hc, if_neg ?_]
        rintro ⟨h1, -, h3⟩
        exact hc ⟨h1, by exact_mod_cast h3⟩
  have hnewExpire :
      ((baseTimestamp p.plan_status p.plan_expires_at
          ((1000 * now / 1000 : ℕ) : ℤ) : ℚ)) + (d : ℚ) * 86400 =
      (((if p.plan_status = some "active" ∧
            p.plan_expires_at = some ((1000 * T : ℕ) : ℚ) ∧ now < T
          then T + d * 86400 else now + d * 86400 : ℕ) : ℚ)) := by
    rw [hbase]
    split_ifs
    · push_cast
      ring
    · push_cast
      ring
  have hstored :
      (⌊(((if p.plan_status = some "active" ∧
            p.plan_expires_at = some ((1000 * T : ℕ) : ℚ) ∧ now < T
          then T + d * 86400 else now + d * 86400 : ℕ) : ℚ)) * 1000⌋ : ℚ) =
      (((if p.plan_status = some "active" ∧
            p.plan_expires_at = some ((1000 * T : ℕ) : ℚ) ∧ now < T
          then T + d * 86400 else now + d * 86400 : ℕ) : ℚ)) * 1000 := by
    rw [show ((((if p.plan_status = some "active" ∧
            p.plan_expires_at = some ((1000 * T : ℕ) : ℚ) ∧ now < T
          then T + d * 86400 else now + d * 86400 : ℕ) : ℚ)) * 1000 : ℚ) =
        (((if p.plan_status = some "active" ∧
            p.plan_expires_at = some ((1000 * T : ℕ) : ℚ) ∧ now < T
          then T + d * 86400 else now + d * 86400 : ℕ) * 1000 : ℕ) : ℚ)
      from by push_cast; ring]
    rw [Int.floor_natCast]
    push_cast
    ring
  constructor
  · simp only [activatePlan, bne_self_eq_false, Bool.false_eq_true, if_false,
      truthyVal, hkeyT, hdq, if_neg hdq, Bool.not_true, Bool.not_false]
    simp only [hkey, Option.getD_some, hnewExpire]
    have h1 : (userId != "") = true := by simp [huid]
    have h2 : (pname != "") = true := by simp [hpn]
    have h3 : ((d : ℚ) != 0) = true := by
      simp only [bne_iff_ne, ne_eq]
      intro h0
      rw [h0] at hdq
      norm_num at hdq
    simp only [h1, h2, h3, Bool.and_self, Bool.and_true, Bool.true_and,
      Bool.not_true, Bool.false_eq_true, if_false]
    cases patchOk <;> cases repoOk <;> simp
  · intro hpatch hrepo
    subst hpatch hrepo
    simp only [activatePlan, bne_self_eq_false, Bool.false_eq_true, if_false,
      truthyVal, hkeyT, hdq, if_neg hdq, Bool.not_true, Bool.not_false]
    simp only [hkey, Option.getD_some, hnewExpire, hstored]
    have h1 : (userId != "") = true := by simp [huid]
    have h2 : (pname != "") = true := by simp [hpn]
    have h3 : ((d : ℚ) != 0) = true := by
      simp only [bne_iff_ne, ne_eq]
      intro h0
      rw [h0] at hdq
      norm_num at hdq
    simp only [h1, h2, h3, Bool.and_self, Bool.and_true, Bool.true_and,
      Bool.not_true, Bool.false_eq_true, if_false]
    simp

/-- Witness for C1: extending an active plan with 2000 seconds of balance
left by 30 days patches the provider with `2000 + 30*86400` seconds. -/
theorem C1_plan_activation_arithmetic_witness :
    (activatePlan "sec" "sec" (.vstr "user-1") (.vstr "gold") (.vnum (30 : ℕ))
        (some ⟨some "K1", some "active", none, some ((1000 * 2000 : ℕ) : ℚ),
          none, none⟩) (1000 * 1000) true true).calls =
      [.patchUser "K1"
        (((if (⟨some "K1", some "active", none, some ((1000 * 2000 : ℕ) : ℚ),
              none, none⟩ : Profile).plan_status = some "active" ∧
            (⟨some "K1", some "active", none, some ((1000 * 2000 : ℕ) : ℚ),
              none, none⟩ : Profile).plan_expires_at
                = some ((1000 * 2000 : ℕ) : ℚ) ∧ 1000 < 2000
          then 2000 + 30 * 86400 else 1000 + 30 * 86400 : ℕ) : ℚ))] :=
  (C1_plan_activation_arithmetic "sec" _ "K1" "user-1" "gold" 2000 1000 30
    true true rfl (by decide) (by decide) (by decide) (by decide)
    (Or.inr rfl)).1
